import Mathlib

/-!
Freno, `go/mysql/mysql_throttle_metric.go`

A shallow embedding of `ReadThrottleMetric`, the probe that reads one numeric
measurement (replication lag or a custom metric) from a MySQL endpoint.

The Go function talks to three collaborators that live outside the file: the
connection provider and row scanners of `sqlutils` / `database/sql`, the
metrics registry of `go-metrics`, and the clock.  They are taken as parameters:
a value of `Env` fixes what each collaborator answers, and the embedding
returns, next to the metric, the list of collaborator calls that were made and
the registry as the deferred telemetry step leaves it.
-/

namespace mysql

/-! ## Go values -/

/-- Go `error` value, represented by its message text; `nil` is `none` of `Option Error`. -/
structure Error where
  text : String
deriving DecidableEq

/-- Go `float64` measurement, represented by the exact number it denotes
(NaN and the infinities are not represented). -/
abbrev Float64 := ℚ

/-- Number of low-order bits that do not fit in a 53-bit significand. -/
def excessBits : Nat → Nat → Nat
  | 0, _ => 0
  | fuel + 1, m => if m < 2 ^ 53 then 0 else excessBits fuel (m / 2) + 1

/-- Round a natural number to 53 significant bits, ties to even. -/
def roundNat53 (m : Nat) : Nat :=
  if m < 2 ^ 53 then m
  else
    let e := excessBits m m
    let q := m / 2 ^ e
    let r := m % 2 ^ e
    let half := 2 ^ (e - 1)
    if half < r ∨ (r = half ∧ q % 2 = 1) then (q + 1) * 2 ^ e else q * 2 ^ e

/-- Go conversion `float64(n)` of an integer: the nearest float64, ties to even. -/
def float64 (n : Int) : Float64 :=
  if n < 0 then -((roundNat53 n.natAbs : Nat) : ℚ) else ((roundNat53 n.natAbs : Nat) : ℚ)

namespace strings

/-- Lower-case one character: `A`..`Z` go to `a`..`z`, every other character is kept. -/
def toLowerChar (c : Char) : Char :=
  if 65 ≤ c.toNat ∧ c.toNat ≤ 90 then Char.ofNat (c.toNat + 32) else c

/-- Go `strings.ToLower`, on the ASCII letters.  (No character outside ASCII
lower-cases to a letter of `select` or `show global`, so the two prefix tests
of the probe see the same answer.) -/
def ToLower (s : String) : String := ⟨s.data.map toLowerChar⟩

/-- Go `strings.HasPrefix`. -/
def HasPrefix (s p : String) : Bool := p.data.isPrefixOf s.data

/-- Go `strings.Contains`, as a proposition: `sub` occurs in `s`. -/
def Contains (s sub : String) : Prop := sub.data <:+: s.data

instance (s sub : String) : Decidable (Contains s sub) := by
  unfold Contains; infer_instance

end strings

namespace fmt

/-- The call `fmt.Errorf("Unsupported metrics query type: %s", query)`. -/
def ErrorfUnsupported (query : String) : Error :=
  ⟨"Unsupported metrics query type: " ++ query⟩

/-- The call `fmt.Errorf("replication not running; Slave_IO_Running=%+v, Slave_SQL_Running=%+v", io, sql)`
on two strings (`%+v` prints a string as it is). -/
def ErrorfNotRunning (io sql : String) : Error :=
  ⟨"replication not running; Slave_IO_Running=" ++ io ++ ", Slave_SQL_Running=" ++ sql⟩

end fmt

/-! ## Data model -/

/-- Modelled from the spec: the declaration of `InstanceKey` is not in the source
file; the spec describes it as the opaque identity of the probed endpoint. -/
structure InstanceKey where
  ident : String
deriving DecidableEq, Inhabited

/-- Modelled from the spec: the declaration of `Probe` is not in the source file;
the spec describes the target as an identity key, an optional metric-query
string and a way to produce a connection URI scoped to a schema. -/
structure Probe where
  Key : InstanceKey
  MetricQuery : String
  GetDBUri : String → String

structure MySQLThrottleMetric where
  Key : InstanceKey
  Value : Float64
  Err : Option Error
deriving DecidableEq

def NewMySQLThrottleMetric : MySQLThrottleMetric :=
  { Key := default, Value := 0, Err := none }

def MySQLThrottleMetric.Get (metric : MySQLThrottleMetric) : Float64 × Option Error :=
  (metric.Value, metric.Err)

/-! ## Collaborators -/

namespace sql

/-- Go `sql.NullInt64`. -/
structure NullInt64 where
  Int64 : Int
  Valid : Bool
deriving DecidableEq

/-- What `db.QueryRow(query).Scan(&value)` does: the number it stores through
the destination pointer (if it stores one) and the error it returns.  The two
are independent: `Row.Scan` closes the row set after filling the destination
and returns the error of that close. -/
structure ScanResult where
  stored : Option Float64
  err : Option Error

/-- What `db.QueryRow(query).Scan(&name, &value)` does: the string stored
through the first pointer, the number stored through the second, and the
error returned. -/
structure Scan2Result where
  name : Option String
  stored : Option Float64
  err : Option Error

end sql

namespace sqlutils

/-- The row handed to the callback of `QueryRowsMap`, given by what its two
accessors answer for each column name. -/
structure RowMap where
  GetString : String → String
  GetNullInt64 : String → sql.NullInt64

end sqlutils

namespace sql

/-- The database handle, as the probe observes it. -/
structure DB where
  /-- The call `db.QueryRow(query).Scan(&value)`. -/
  QueryRowScan : String → ScanResult
  /-- The call `db.QueryRow(query).Scan(&name, &value)`. -/
  QueryRowScan2 : String → Scan2Result
  /-- The statement behind `sqlutils.QueryRowsMap`: it fails, or yields rows. -/
  Query : String → Except Error (List sqlutils.RowMap)

end sql

namespace sqlutils

/-- The callback loop of `QueryRowsMap`: the callback runs on each row in
order and the first error it returns ends the loop and is the result. -/
def forEachRow {σ : Type} (on_row : σ → RowMap → σ × Option Error) : List RowMap → σ → σ × Option Error
  | [], s => (s, none)
  | m :: rest, s =>
    match on_row s m with
    | (s1, some e) => (s1, some e)
    | (s1, none) => forEachRow on_row rest s1

/-- The call `sqlutils.QueryRowsMap(db, query, on_row)`: a failing statement is
returned without the callback running; otherwise the callback runs per row.
The state `σ` is what the Go closure captures and mutates. -/
def QueryRowsMap {σ : Type} (db : sql.DB) (query : String)
    (on_row : σ → RowMap → σ × Option Error) (s : σ) : σ × Option Error :=
  match db.Query query with
  | .error e => (s, some e)
  | .ok rows => forEachRow on_row rows s

end sqlutils

namespace metrics

/-- The default registry of `go-metrics`: the samples each timer has received
and the count of each counter, by instrument name. -/
structure Registry where
  timers : String → List Int
  counters : String → Int

/-- The call `GetOrRegisterTimer(name, nil).Update(d)`. -/
def Registry.UpdateTimer (r : Registry) (name : String) (d : Int) : Registry :=
  { r with timers := Function.update r.timers name (r.timers name ++ [d]) }

/-- The call `GetOrRegisterCounter(name, nil).Inc(n)`. -/
def Registry.IncCounter (r : Registry) (name : String) (n : Int) : Registry :=
  { r with counters := Function.update r.counters name (r.counters name + n) }

end metrics

/-- A call the probe makes on the connection provider or on the handle. -/
inductive Call where
  | GetDB (uri : String)
  | SetMaxOpenConns (n : Int)
  | SetMaxIdleConns (n : Int)
  | QueryRow (query : String) (dests : Nat)
  | QueryRowsMap (query : String)
deriving DecidableEq

/-- Whether a call sends a statement to the database. -/
def Call.isStatement : Call → Bool
  | .QueryRow _ _ => true
  | .QueryRowsMap _ => true
  | _ => false

/-- Everything outside the file that one invocation depends on. -/
structure Env where
  /-- The call `sqlutils.GetDB(uri)`: an error, or a handle and whether it came from the cache. -/
  GetDB : String → Except Error (sql.DB × Bool)
  /-- Package constant declared outside the file. -/
  maxPoolConnections : Int
  /-- Package constant declared outside the file. -/
  maxIdleConnections : Int
  /-- The value of `time.Now()` at entry. -/
  Now : Int
  /-- The value of `time.Since(t)` as read by the deferred step. -/
  Since : Int → Int

/-! ## The probe -/

/-- The callback given to `QueryRowsMap` (source lines 77-86). -/
def onSlaveStatusRow (metric : MySQLThrottleMetric) (m : sqlutils.RowMap) :
    MySQLThrottleMetric × Option Error :=
  let slaveIORunning := m.GetString "Slave_IO_Running"
  let slaveSQLRunning := m.GetString "Slave_SQL_Running"
  let secondsBehindMaster := m.GetNullInt64 "Seconds_Behind_Master"
  if !secondsBehindMaster.Valid then
    (metric, some (fmt.ErrorfNotRunning slaveIORunning slaveSQLRunning))
  else
    ({ metric with Value := float64 secondsBehindMaster.Int64 }, none)

/-- The body of `ReadThrottleMetric` between the `defer` and the return
(source lines 48-87): the metric returned and the collaborator calls made. -/
def readBody (env : Env) (probe : Probe) : MySQLThrottleMetric × List Call :=
  let metric := { NewMySQLThrottleMetric with Key := probe.Key }
  let dbUri := probe.GetDBUri "information_schema"
  match env.GetDB dbUri with
  | .error err => ({ metric with Err := some err }, [Call.GetDB dbUri])
  | .ok (db, fromCache) =>
    let calls := Call.GetDB dbUri ::
      (if !fromCache then
        [Call.SetMaxOpenConns env.maxPoolConnections, Call.SetMaxIdleConns env.maxIdleConnections]
      else [])
    if strings.HasPrefix (strings.ToLower probe.MetricQuery) "select" then
      let r := db.QueryRowScan probe.MetricQuery
      ({ metric with Value := r.stored.getD metric.Value, Err := r.err },
        calls ++ [Call.QueryRow probe.MetricQuery 1])
    else if strings.HasPrefix (strings.ToLower probe.MetricQuery) "show global" then
      let r := db.QueryRowScan2 probe.MetricQuery
      ({ metric with Value := r.stored.getD metric.Value, Err := r.err },
        calls ++ [Call.QueryRow probe.MetricQuery 2])
    else if probe.MetricQuery ≠ "" then
      ({ metric with Err := some (fmt.ErrorfUnsupported probe.MetricQuery) }, calls)
    else
      let r := sqlutils.QueryRowsMap db "show slave status" onSlaveStatusRow metric
      ({ r.1 with Err := r.2 }, calls ++ [Call.QueryRowsMap "show slave status"])

/-- The deferred function (source lines 38-46), with its goroutine run to the end. -/
def recordTelemetry (metric : MySQLThrottleMetric) (elapsed : Int)
    (reg : metrics.Registry) : metrics.Registry :=
  let reg := reg.UpdateTimer "probes.latency" elapsed
  let reg := reg.IncCounter "probes.total" 1
  if metric.Err ≠ none then reg.IncCounter "probes.error" 1 else reg

/-- What one invocation leaves behind. -/
structure Outcome where
  metric : MySQLThrottleMetric
  calls : List Call
  registry : metrics.Registry

/-- The function `ReadThrottleMetric(probe)`, started on registry `reg`. -/
def ReadThrottleMetric (env : Env) (probe : Probe) (reg : metrics.Registry) : Outcome :=
  let started := env.Now
  let r := readBody env probe
  { metric := r.1, calls := r.2, registry := recordTelemetry r.1 (env.Since started) reg }

/-- The statements an invocation sent to the database. -/
def Outcome.statements (o : Outcome) : List Call := o.calls.filter Call.isStatement

/-! ## Sample collaborators, for evaluating the probe on concrete inputs -/

/-- A probe of endpoint `db1:3306` with the given metric query. -/
def sampleProbe (query : String) : Probe :=
  { Key := ⟨"db1:3306"⟩
    MetricQuery := query
    GetDBUri := fun schema => "freno:secret@tcp(db1:3306)/" ++ schema }

/-- A `show slave status` row with the given running states and lag column. -/
def replicaRow (ioState sqlState : String) (lag : sql.NullInt64) : sqlutils.RowMap :=
  { GetString := fun column =>
      if column = "Slave_IO_Running" then ioState
      else if column = "Slave_SQL_Running" then sqlState else ""
    GetNullInt64 := fun column =>
      if column = "Seconds_Behind_Master" then lag else ⟨0, false⟩ }

/-- A handle that answers every one-column scan with `scan`, every two-column
scan with `scan2`, and every row query with `rows`. -/
def sampleDB (scan : sql.ScanResult) (scan2 : sql.Scan2Result)
    (rows : Except Error (List sqlutils.RowMap)) : sql.DB :=
  { QueryRowScan := fun _ => scan
    QueryRowScan2 := fun _ => scan2
    Query := fun _ => rows }

/-- A handle on which only the row query matters. -/
def rowsDB (rows : List sqlutils.RowMap) : sql.DB :=
  sampleDB ⟨none, some ⟨"sql: no rows in result set"⟩⟩
    ⟨none, none, some ⟨"sql: no rows in result set"⟩⟩ (.ok rows)

/-- An environment whose provider answers every URI with `conn`. -/
def sampleEnv (conn : Except Error (sql.DB × Bool)) : Env :=
  { GetDB := fun _ => conn
    maxPoolConnections := 3
    maxIdleConnections := 3
    Now := 1000
    Since := fun started => 1250 - started }

/-- A probe whose connection URI lacks the slash before the database name. -/
def malformedProbe (query : String) : Probe :=
  { Key := ⟨"db1:3306"⟩
    MetricQuery := query
    GetDBUri := fun _ => "freno:secret@tcp(db1:3306)" }

/-- An environment whose provider only parses the URI, as `sql.Open` does with
the MySQL driver: nothing is dialled, a URI without the slash before the
database name is refused, and every other URI gets the fresh handle `db`. -/
def parsingEnv (db : sql.DB) : Env :=
  { GetDB := fun uri =>
      if uri.data.contains '/' then .ok (db, false)
      else .error ⟨"invalid DSN: missing the slash separating the database name"⟩
    maxPoolConnections := 3
    maxIdleConnections := 3
    Now := 1000
    Since := fun started => 1250 - started }

/-- A registry on which nothing has been recorded. -/
def emptyRegistry : metrics.Registry :=
  { timers := fun _ => [], counters := fun _ => 0 }

/-! ## Lemmas on the embedding -/

theorem hasPrefix_select_empty :
    strings.HasPrefix (strings.ToLower "") "select" = false := by decide

theorem hasPrefix_show_global_empty :
    strings.HasPrefix (strings.ToLower "") "show global" = false := by decide

theorem contains_append (a b c : String) : strings.Contains (a ++ b ++ c) b := by
  unfold strings.Contains
  exact ⟨a.data, c.data, by simp⟩

theorem float64_zero : float64 0 = 0 := by
  simp [float64, roundNat53]

/-- Integers of magnitude below 2^53 convert without rounding. -/
theorem float64_exact (n : Int) (h : n.natAbs < 2 ^ 53) : float64 n = (n : ℚ) := by
  unfold float64 roundNat53
  rw [if_pos h]
  split
  · next hneg =>
    rw [Nat.cast_natAbs, abs_of_neg hneg]
    push_cast
    ring
  · next hpos =>
    rw [Nat.cast_natAbs, abs_of_nonneg (by omega)]

/-- Above 2^53 the conversion rounds to the nearest representable integer,
ties to even; the largest int64 rounds to 2^63. -/
theorem roundNat53_rounds :
    roundNat53 (2 ^ 53 + 1) = 2 ^ 53 ∧ roundNat53 (2 ^ 53 + 3) = 2 ^ 53 + 4 ∧
      roundNat53 (2 ^ 54 + 5) = 2 ^ 54 + 4 ∧ roundNat53 (2 ^ 63 - 1) = 2 ^ 63 := by
  decide

theorem statements_after_getDB (uri : String) (fromCache : Bool) (a b : Int) (rest : List Call) :
    ((Call.GetDB uri ::
      (if !fromCache then [Call.SetMaxOpenConns a, Call.SetMaxIdleConns b] else [])) ++ rest).filter
        Call.isStatement = rest.filter Call.isStatement := by
  cases fromCache <;> simp [Call.isStatement]

/-- The metric and calls on the default path, for a reachable endpoint. -/
theorem readBody_default (env : Env) (probe : Probe) (db : sql.DB) (fromCache : Bool)
    (hq : probe.MetricQuery = "")
    (hdb : env.GetDB (probe.GetDBUri "information_schema") = .ok (db, fromCache)) :
    readBody env probe =
      ({ (sqlutils.QueryRowsMap db "show slave status" onSlaveStatusRow
            { NewMySQLThrottleMetric with Key := probe.Key }).1 with
          Err := (sqlutils.QueryRowsMap db "show slave status" onSlaveStatusRow
            { NewMySQLThrottleMetric with Key := probe.Key }).2 },
        (Call.GetDB (probe.GetDBUri "information_schema") ::
          (if !fromCache then
            [Call.SetMaxOpenConns env.maxPoolConnections,
              Call.SetMaxIdleConns env.maxIdleConnections]
          else [])) ++ [Call.QueryRowsMap "show slave status"]) := by
  simp [readBody, hdb, hq, hasPrefix_select_empty, hasPrefix_show_global_empty]

theorem onSlaveStatusRow_null (metric : MySQLThrottleMetric) (m : sqlutils.RowMap)
    (h : (m.GetNullInt64 "Seconds_Behind_Master").Valid = false) :
    onSlaveStatusRow metric m =
      (metric, some (fmt.ErrorfNotRunning (m.GetString "Slave_IO_Running")
        (m.GetString "Slave_SQL_Running"))) := by
  simp [onSlaveStatusRow, h]

theorem onSlaveStatusRow_valid (metric : MySQLThrottleMetric) (m : sqlutils.RowMap)
    (h : (m.GetNullInt64 "Seconds_Behind_Master").Valid = true) :
    onSlaveStatusRow metric m =
      ({ metric with Value := float64 (m.GetNullInt64 "Seconds_Behind_Master").Int64 }, none) := by
  simp [onSlaveStatusRow, h]

theorem forEachRow_null (metric : MySQLThrottleMetric) (m : sqlutils.RowMap)
    (rest : List sqlutils.RowMap)
    (h : (m.GetNullInt64 "Seconds_Behind_Master").Valid = false) :
    sqlutils.forEachRow onSlaveStatusRow (m :: rest) metric =
      (metric, some (fmt.ErrorfNotRunning (m.GetString "Slave_IO_Running")
        (m.GetString "Slave_SQL_Running"))) := by
  simp [sqlutils.forEachRow, onSlaveStatusRow_null metric m h]

theorem forEachRow_valid (metric : MySQLThrottleMetric) (m : sqlutils.RowMap)
    (rest : List sqlutils.RowMap)
    (h : (m.GetNullInt64 "Seconds_Behind_Master").Valid = true) :
    sqlutils.forEachRow onSlaveStatusRow (m :: rest) metric =
      sqlutils.forEachRow onSlaveStatusRow rest
        { metric with Value := float64 (m.GetNullInt64 "Seconds_Behind_Master").Int64 } := by
  simp [sqlutils.forEachRow, onSlaveStatusRow_valid metric m h]

theorem forEachRow_nil (metric : MySQLThrottleMetric) :
    sqlutils.forEachRow onSlaveStatusRow [] metric = (metric, none) := rfl

/-- The row callback never touches the key. -/
theorem forEachRow_key (rows : List sqlutils.RowMap) (metric : MySQLThrottleMetric) :
    (sqlutils.forEachRow onSlaveStatusRow rows metric).1.Key = metric.Key := by
  induction rows generalizing metric with
  | nil => rfl
  | cons m rest ih =>
    cases h : (m.GetNullInt64 "Seconds_Behind_Master").Valid
    · rw [forEachRow_null metric m rest h]
    · rw [forEachRow_valid metric m rest h, ih]

/-- The metric of an invocation is the one the body returns. -/
theorem ReadThrottleMetric_metric (env : Env) (probe : Probe) (reg : metrics.Registry) :
    (ReadThrottleMetric env probe reg).metric = (readBody env probe).1 := rfl

theorem ReadThrottleMetric_calls (env : Env) (probe : Probe) (reg : metrics.Registry) :
    (ReadThrottleMetric env probe reg).calls = (readBody env probe).2 := rfl

/-! ## The default path: `show slave status` -/

/-- C1. With an empty MetricQuery, a reachable endpoint and a single
`show slave status` row whose Seconds_Behind_Master is the non-null integer N,
the result has no error and its Value is `float64(N)`. -/
theorem ReadThrottleMetric_replica_lag (env : Env) (probe : Probe) (reg : metrics.Registry)
    (db : sql.DB) (fromCache : Bool) (m : sqlutils.RowMap) (N : Int)
    (hq : probe.MetricQuery = "")
    (hdb : env.GetDB (probe.GetDBUri "information_schema") = .ok (db, fromCache))
    (hrows : db.Query "show slave status" = .ok [m])
    (hlag : m.GetNullInt64 "Seconds_Behind_Master" = ⟨N, true⟩) :
    (ReadThrottleMetric env probe reg).metric.Err = none ∧
      (ReadThrottleMetric env probe reg).metric.Value = float64 N := by
  have hv : (m.GetNullInt64 "Seconds_Behind_Master").Valid = true := by rw [hlag]
  rw [ReadThrottleMetric_metric, readBody_default env probe db fromCache hq hdb]
  simp [sqlutils.QueryRowsMap, hrows, forEachRow_valid _ m [] hv, forEachRow_nil, hlag]

theorem ReadThrottleMetric_replica_lag_witness :
    (ReadThrottleMetric (sampleEnv (.ok (rowsDB [replicaRow "Yes" "Yes" ⟨5, true⟩], false)))
        (sampleProbe "") emptyRegistry).metric.Err = none ∧
      (ReadThrottleMetric (sampleEnv (.ok (rowsDB [replicaRow "Yes" "Yes" ⟨5, true⟩], false)))
        (sampleProbe "") emptyRegistry).metric.Value = float64 5 :=
  ReadThrottleMetric_replica_lag _ _ _ (rowsDB [replicaRow "Yes" "Yes" ⟨5, true⟩]) false
    (replicaRow "Yes" "Yes" ⟨5, true⟩) 5 rfl rfl rfl rfl

/-- C2. With an empty MetricQuery, a reachable endpoint and a
`show slave status` row whose Seconds_Behind_Master is null, the result carries
the error "replication not running; Slave_IO_Running=<io>, Slave_SQL_Running=<sql>",
whose text contains both running-state strings of the row. -/
theorem ReadThrottleMetric_replication_not_running (env : Env) (probe : Probe)
    (reg : metrics.Registry) (db : sql.DB) (fromCache : Bool) (m : sqlutils.RowMap)
    (hq : probe.MetricQuery = "")
    (hdb : env.GetDB (probe.GetDBUri "information_schema") = .ok (db, fromCache))
    (hrows : db.Query "show slave status" = .ok [m])
    (hnull : (m.GetNullInt64 "Seconds_Behind_Master").Valid = false) :
    ∃ e : Error, (ReadThrottleMetric env probe reg).metric.Err = some e ∧
      e.text = "replication not running; Slave_IO_Running=" ++ m.GetString "Slave_IO_Running"
        ++ ", Slave_SQL_Running=" ++ m.GetString "Slave_SQL_Running" ∧
      strings.Contains e.text (m.GetString "Slave_IO_Running") ∧
      strings.Contains e.text (m.GetString "Slave_SQL_Running") := by
  refine ⟨fmt.ErrorfNotRunning (m.GetString "Slave_IO_Running")
    (m.GetString "Slave_SQL_Running"), ?_, rfl, ?_, ?_⟩
  · rw [ReadThrottleMetric_metric, readBody_default env probe db fromCache hq hdb]
    simp [sqlutils.QueryRowsMap, hrows, forEachRow_null _ m [] hnull]
  · unfold strings.Contains fmt.ErrorfNotRunning
    exact ⟨"replication not running; Slave_IO_Running=".data,
      (", Slave_SQL_Running=" ++ m.GetString "Slave_SQL_Running").data, by simp⟩
  · unfold strings.Contains fmt.ErrorfNotRunning
    exact ⟨("replication not running; Slave_IO_Running=" ++ m.GetString "Slave_IO_Running"
      ++ ", Slave_SQL_Running=").data, [], by simp⟩

theorem ReadThrottleMetric_replication_not_running_witness :
    ∃ e : Error,
      (ReadThrottleMetric (sampleEnv (.ok (rowsDB [replicaRow "Connecting" "No" ⟨0, false⟩], true)))
        (sampleProbe "") emptyRegistry).metric.Err = some e ∧
      e.text = "replication not running; Slave_IO_Running=" ++ "Connecting"
        ++ ", Slave_SQL_Running=" ++ "No" ∧
      strings.Contains e.text "Connecting" ∧ strings.Contains e.text "No" :=
  ReadThrottleMetric_replication_not_running _ _ _
    (rowsDB [replicaRow "Connecting" "No" ⟨0, false⟩]) true
    (replicaRow "Connecting" "No" ⟨0, false⟩) rfl rfl rfl rfl

/-- C10. With an empty MetricQuery and a reachable endpoint on which
`show slave status` succeeds with no rows, the result has no error and Value 0:
the same result as for a replica whose single row reports a lag of zero. -/
theorem ReadThrottleMetric_not_a_replica (env : Env) (probe : Probe) (reg : metrics.Registry)
    (db : sql.DB) (fromCache : Bool)
    (hq : probe.MetricQuery = "")
    (hdb : env.GetDB (probe.GetDBUri "information_schema") = .ok (db, fromCache))
    (hrows : db.Query "show slave status" = .ok []) :
    (ReadThrottleMetric env probe reg).metric.Err = none ∧
      (ReadThrottleMetric env probe reg).metric.Value = 0 ∧
      ∀ (env2 : Env) (reg2 : metrics.Registry) (db2 : sql.DB) (fromCache2 : Bool)
        (m : sqlutils.RowMap),
        env2.GetDB (probe.GetDBUri "information_schema") = .ok (db2, fromCache2) →
        db2.Query "show slave status" = .ok [m] →
        m.GetNullInt64 "Seconds_Behind_Master" = ⟨0, true⟩ →
        (ReadThrottleMetric env2 probe reg2).metric = (ReadThrottleMetric env probe reg).metric := by
  have h0 : (ReadThrottleMetric env probe reg).metric =
      { Key := probe.Key, Value := 0, Err := none } := by
    rw [ReadThrottleMetric_metric, readBody_default env probe db fromCache hq hdb]
    simp [sqlutils.QueryRowsMap, hrows, forEachRow_nil, NewMySQLThrottleMetric]
  refine ⟨by rw [h0], by rw [h0], ?_⟩
  intro env2 reg2 db2 fromCache2 m hdb2 hrows2 hlag
  have hv : (m.GetNullInt64 "Seconds_Behind_Master").Valid = true := by rw [hlag]
  rw [h0, ReadThrottleMetric_metric, readBody_default env2 probe db2 fromCache2 hq hdb2]
  simp [sqlutils.QueryRowsMap, hrows2, forEachRow_valid _ m [] hv, forEachRow_nil, hlag,
    float64_zero, NewMySQLThrottleMetric]

theorem ReadThrottleMetric_not_a_replica_witness :
    (ReadThrottleMetric (sampleEnv (.ok (rowsDB [], false))) (sampleProbe "")
        emptyRegistry).metric.Err = none ∧
      (ReadThrottleMetric (sampleEnv (.ok (rowsDB [], false))) (sampleProbe "")
        emptyRegistry).metric.Value = 0 ∧
      (ReadThrottleMetric (sampleEnv (.ok (rowsDB [replicaRow "Yes" "Yes" ⟨0, true⟩], true)))
        (sampleProbe "") emptyRegistry).metric =
      (ReadThrottleMetric (sampleEnv (.ok (rowsDB [], false))) (sampleProbe "")
        emptyRegistry).metric :=
  have h := ReadThrottleMetric_not_a_replica (sampleEnv (.ok (rowsDB [], false)))
    (sampleProbe "") emptyRegistry (rowsDB []) false rfl rfl rfl
  ⟨h.1, h.2.1, h.2.2 (sampleEnv (.ok (rowsDB [replicaRow "Yes" "Yes" ⟨0, true⟩], true)))
    emptyRegistry (rowsDB [replicaRow "Yes" "Yes" ⟨0, true⟩]) true
    (replicaRow "Yes" "Yes" ⟨0, true⟩) rfl rfl rfl⟩

/-! ## Connection failure -/

/-- The body on a failed connection acquisition. -/
theorem readBody_connection_error (env : Env) (probe : Probe) (e : Error)
    (hdb : env.GetDB (probe.GetDBUri "information_schema") = .error e) :
    readBody env probe =
      ({ Key := probe.Key, Value := 0, Err := some e },
        [Call.GetDB (probe.GetDBUri "information_schema")]) := by
  simp [readBody, hdb, NewMySQLThrottleMetric]

/-- C4. When `sqlutils.GetDB` fails with error e, the result has Err = e and
Value = 0, and the only collaborator call made is the failed acquisition: no
statement is sent to the database, whatever the MetricQuery is. -/
theorem ReadThrottleMetric_connection_error (env : Env) (probe : Probe)
    (reg : metrics.Registry) (e : Error)
    (hdb : env.GetDB (probe.GetDBUri "information_schema") = .error e) :
    (ReadThrottleMetric env probe reg).metric.Err = some e ∧
      (ReadThrottleMetric env probe reg).metric.Value = 0 ∧
      (ReadThrottleMetric env probe reg).calls =
        [Call.GetDB (probe.GetDBUri "information_schema")] ∧
      (ReadThrottleMetric env probe reg).statements = [] := by
  simp [Outcome.statements, ReadThrottleMetric_metric, ReadThrottleMetric_calls,
    readBody_connection_error env probe e hdb, Call.isStatement]

theorem ReadThrottleMetric_connection_error_witness :
    (ReadThrottleMetric (parsingEnv (rowsDB [])) (malformedProbe "select 1")
        emptyRegistry).metric.Err =
        some ⟨"invalid DSN: missing the slash separating the database name"⟩ ∧
      (ReadThrottleMetric (parsingEnv (rowsDB [])) (malformedProbe "select 1")
        emptyRegistry).metric.Value = 0 ∧
      (ReadThrottleMetric (parsingEnv (rowsDB [])) (malformedProbe "select 1")
        emptyRegistry).calls =
        [Call.GetDB ((malformedProbe "select 1").GetDBUri "information_schema")] ∧
      (ReadThrottleMetric (parsingEnv (rowsDB [])) (malformedProbe "select 1")
        emptyRegistry).statements = [] :=
  ReadThrottleMetric_connection_error (parsingEnv (rowsDB [])) (malformedProbe "select 1")
    emptyRegistry ⟨"invalid DSN: missing the slash separating the database name"⟩ rfl

/-! ## Explicit metric queries -/

/-- The body on the `select` path, for a reachable endpoint. -/
theorem readBody_select (env : Env) (probe : Probe) (db : sql.DB) (fromCache : Bool)
    (hsel : strings.HasPrefix (strings.ToLower probe.MetricQuery) "select" = true)
    (hdb : env.GetDB (probe.GetDBUri "information_schema") = .ok (db, fromCache)) :
    readBody env probe =
      ({ Key := probe.Key
         Value := (db.QueryRowScan probe.MetricQuery).stored.getD 0
         Err := (db.QueryRowScan probe.MetricQuery).err },
        (Call.GetDB (probe.GetDBUri "information_schema") ::
          (if !fromCache then
            [Call.SetMaxOpenConns env.maxPoolConnections,
              Call.SetMaxIdleConns env.maxIdleConnections]
          else [])) ++ [Call.QueryRow probe.MetricQuery 1]) := by
  simp [readBody, hdb, hsel, NewMySQLThrottleMetric]

/-- The body on the `show global` path, for a reachable endpoint. -/
theorem readBody_show_global (env : Env) (probe : Probe) (db : sql.DB) (fromCache : Bool)
    (hsel : strings.HasPrefix (strings.ToLower probe.MetricQuery) "select" = false)
    (hshow : strings.HasPrefix (strings.ToLower probe.MetricQuery) "show global" = true)
    (hdb : env.GetDB (probe.GetDBUri "information_schema") = .ok (db, fromCache)) :
    readBody env probe =
      ({ Key := probe.Key
         Value := (db.QueryRowScan2 probe.MetricQuery).stored.getD 0
         Err := (db.QueryRowScan2 probe.MetricQuery).err },
        (Call.GetDB (probe.GetDBUri "information_schema") ::
          (if !fromCache then
            [Call.SetMaxOpenConns env.maxPoolConnections,
              Call.SetMaxIdleConns env.maxIdleConnections]
          else [])) ++ [Call.QueryRow probe.MetricQuery 2]) := by
  simp [readBody, hdb, hsel, hshow, NewMySQLThrottleMetric]

/-- The body on the unsupported-query path, for a reachable endpoint. -/
theorem readBody_unsupported (env : Env) (probe : Probe) (db : sql.DB) (fromCache : Bool)
    (hne : probe.MetricQuery ≠ "")
    (hsel : strings.HasPrefix (strings.ToLower probe.MetricQuery) "select" = false)
    (hshow : strings.HasPrefix (strings.ToLower probe.MetricQuery) "show global" = false)
    (hdb : env.GetDB (probe.GetDBUri "information_schema") = .ok (db, fromCache)) :
    readBody env probe =
      ({ Key := probe.Key, Value := 0, Err := some (fmt.ErrorfUnsupported probe.MetricQuery) },
        (Call.GetDB (probe.GetDBUri "information_schema") ::
          (if !fromCache then
            [Call.SetMaxOpenConns env.maxPoolConnections,
              Call.SetMaxIdleConns env.maxIdleConnections]
          else [])) ++ []) := by
  simp [readBody, hdb, hsel, hshow, hne, NewMySQLThrottleMetric]

/-- C6. When the lower-cased MetricQuery begins with "select" and the endpoint
is reachable, the only statement sent is a one-destination row scan of the
MetricQuery exactly as given; a scan that stores v and returns no error gives
Value = v and Err = nil, and a scan that returns error e gives Err = e. -/
theorem ReadThrottleMetric_select (env : Env) (probe : Probe) (reg : metrics.Registry)
    (db : sql.DB) (fromCache : Bool)
    (hsel : strings.HasPrefix (strings.ToLower probe.MetricQuery) "select" = true)
    (hdb : env.GetDB (probe.GetDBUri "information_schema") = .ok (db, fromCache)) :
    (ReadThrottleMetric env probe reg).statements = [Call.QueryRow probe.MetricQuery 1] ∧
      (∀ v : Float64, db.QueryRowScan probe.MetricQuery = ⟨some v, none⟩ →
        (ReadThrottleMetric env probe reg).metric.Value = v ∧
        (ReadThrottleMetric env probe reg).metric.Err = none) ∧
      (∀ e : Error, (db.QueryRowScan probe.MetricQuery).err = some e →
        (ReadThrottleMetric env probe reg).metric.Err = some e) := by
  refine ⟨?_, ?_, ?_⟩
  · rw [Outcome.statements, ReadThrottleMetric_calls, readBody_select env probe db fromCache hsel hdb,
      statements_after_getDB]
    simp [Call.isStatement]
  · intro v hv
    rw [ReadThrottleMetric_metric, readBody_select env probe db fromCache hsel hdb, hv]
    simp
  · intro e he
    rw [ReadThrottleMetric_metric, readBody_select env probe db fromCache hsel hdb]
    exact he

theorem ReadThrottleMetric_select_witness :
    (ReadThrottleMetric (sampleEnv (.ok (sampleDB ⟨some 42, none⟩ ⟨none, none, none⟩ (.ok []), false)))
        (sampleProbe "SELECT 42") emptyRegistry).statements = [Call.QueryRow "SELECT 42" 1] ∧
      (ReadThrottleMetric (sampleEnv (.ok (sampleDB ⟨some 42, none⟩ ⟨none, none, none⟩ (.ok []), false)))
        (sampleProbe "SELECT 42") emptyRegistry).metric.Value = 42 ∧
      (ReadThrottleMetric (sampleEnv (.ok (sampleDB ⟨some 42, none⟩ ⟨none, none, none⟩ (.ok []), false)))
        (sampleProbe "SELECT 42") emptyRegistry).metric.Err = none :=
  have h := ReadThrottleMetric_select
    (sampleEnv (.ok (sampleDB ⟨some 42, none⟩ ⟨none, none, none⟩ (.ok []), false)))
    (sampleProbe "SELECT 42") emptyRegistry
    (sampleDB ⟨some 42, none⟩ ⟨none, none, none⟩ (.ok [])) false (by decide) rfl
  ⟨h.1, h.2.1 42 rfl⟩

/-- C7. When the lower-cased MetricQuery begins with "show global" but not
with "select" and the endpoint is reachable, the only statement sent is a
two-destination row scan of the MetricQuery; the result is built from the
stored number and the returned error alone, so a scan that stores any name
together with v and returns no error gives Value = v and Err = nil. -/
theorem ReadThrottleMetric_show_global (env : Env) (probe : Probe) (reg : metrics.Registry)
    (db : sql.DB) (fromCache : Bool)
    (hsel : strings.HasPrefix (strings.ToLower probe.MetricQuery) "select" = false)
    (hshow : strings.HasPrefix (strings.ToLower probe.MetricQuery) "show global" = true)
    (hdb : env.GetDB (probe.GetDBUri "information_schema") = .ok (db, fromCache)) :
    (ReadThrottleMetric env probe reg).statements = [Call.QueryRow probe.MetricQuery 2] ∧
      (ReadThrottleMetric env probe reg).metric =
        { Key := probe.Key
          Value := (db.QueryRowScan2 probe.MetricQuery).stored.getD 0
          Err := (db.QueryRowScan2 probe.MetricQuery).err } ∧
      (∀ (name : Option String) (v : Float64),
        db.QueryRowScan2 probe.MetricQuery = ⟨name, some v, none⟩ →
        (ReadThrottleMetric env probe reg).metric.Value = v ∧
        (ReadThrottleMetric env probe reg).metric.Err = none) := by
  refine ⟨?_, ?_, ?_⟩
  · rw [Outcome.statements, ReadThrottleMetric_calls,
      readBody_show_global env probe db fromCache hsel hshow hdb, statements_after_getDB]
    simp [Call.isStatement]
  · rw [ReadThrottleMetric_metric, readBody_show_global env probe db fromCache hsel hshow hdb]
  · intro name v hv
    rw [ReadThrottleMetric_metric, readBody_show_global env probe db fromCache hsel hshow hdb, hv]
    simp

theorem ReadThrottleMetric_show_global_witness :
    (ReadThrottleMetric
        (sampleEnv (.ok (sampleDB ⟨none, none⟩ ⟨some "Threads_connected", some 7, none⟩ (.ok []), true)))
        (sampleProbe "show global status like \x27Threads_connected\x27") emptyRegistry).metric.Value = 7 ∧
      (ReadThrottleMetric
        (sampleEnv (.ok (sampleDB ⟨none, none⟩ ⟨some "Threads_connected", some 7, none⟩ (.ok []), true)))
        (sampleProbe "show global status like \x27Threads_connected\x27") emptyRegistry).metric.Err = none :=
  (ReadThrottleMetric_show_global
    (sampleEnv (.ok (sampleDB ⟨none, none⟩ ⟨some "Threads_connected", some 7, none⟩ (.ok []), true)))
    (sampleProbe "show global status like \x27Threads_connected\x27") emptyRegistry
    (sampleDB ⟨none, none⟩ ⟨some "Threads_connected", some 7, none⟩ (.ok [])) true
    (by decide) (by decide) rfl).2.2 (some "Threads_connected") 7 rfl

/-- C3, as the code has it. When the MetricQuery is non-empty and, lower-cased,
begins with neither "select" nor "show global", the result has a non-nil Err
and Value 0 and no statement is sent to the database. When connection
acquisition succeeds the error is "Unsupported metrics query type: <query>",
whose text contains the query; when it fails the error is the acquisition
error. -/
theorem ReadThrottleMetric_unsupported_query (env : Env) (probe : Probe)
    (reg : metrics.Registry)
    (hne : probe.MetricQuery ≠ "")
    (hsel : strings.HasPrefix (strings.ToLower probe.MetricQuery) "select" = false)
    (hshow : strings.HasPrefix (strings.ToLower probe.MetricQuery) "show global" = false) :
    (ReadThrottleMetric env probe reg).metric.Err ≠ none ∧
      (ReadThrottleMetric env probe reg).metric.Value = 0 ∧
      (ReadThrottleMetric env probe reg).statements = [] ∧
      (∀ (db : sql.DB) (fromCache : Bool),
        env.GetDB (probe.GetDBUri "information_schema") = .ok (db, fromCache) →
        ∃ e : Error, (ReadThrottleMetric env probe reg).metric.Err = some e ∧
          e.text = "Unsupported metrics query type: " ++ probe.MetricQuery ∧
          strings.Contains e.text probe.MetricQuery) ∧
      (∀ e : Error, env.GetDB (probe.GetDBUri "information_schema") = .error e →
        (ReadThrottleMetric env probe reg).metric.Err = some e) := by
  have hok : ∀ (db : sql.DB) (fromCache : Bool),
      env.GetDB (probe.GetDBUri "information_schema") = .ok (db, fromCache) →
      ∃ e : Error, (ReadThrottleMetric env probe reg).metric.Err = some e ∧
        e.text = "Unsupported metrics query type: " ++ probe.MetricQuery ∧
        strings.Contains e.text probe.MetricQuery := by
    intro db fromCache hdb
    refine ⟨fmt.ErrorfUnsupported probe.MetricQuery, ?_, rfl, ?_⟩
    · rw [ReadThrottleMetric_metric,
        readBody_unsupported env probe db fromCache hne hsel hshow hdb]
    · unfold strings.Contains fmt.ErrorfUnsupported
      exact ⟨"Unsupported metrics query type: ".data, [], by simp⟩
  have hfail : ∀ e : Error, env.GetDB (probe.GetDBUri "information_schema") = .error e →
      (ReadThrottleMetric env probe reg).metric.Err = some e := by
    intro e hdb
    rw [ReadThrottleMetric_metric, readBody_connection_error env probe e hdb]
  refine ⟨?_, ?_, ?_, hok, hfail⟩
  · cases hdb : env.GetDB (probe.GetDBUri "information_schema") with
    | error e => rw [hfail e hdb]; simp
    | ok conn =>
      obtain ⟨e, he, _⟩ := hok conn.1 conn.2 hdb
      rw [he]; simp
  · rw [ReadThrottleMetric_metric]
    cases hdb : env.GetDB (probe.GetDBUri "information_schema") with
    | error e => rw [readBody_connection_error env probe e hdb]
    | ok conn =>
      rw [readBody_unsupported env probe conn.1 conn.2 hne hsel hshow hdb]
  · rw [Outcome.statements, ReadThrottleMetric_calls]
    cases hdb : env.GetDB (probe.GetDBUri "information_schema") with
    | error e =>
      rw [readBody_connection_error env probe e hdb]
      rfl
    | ok conn =>
      rw [readBody_unsupported env probe conn.1 conn.2 hne hsel hshow hdb,
        statements_after_getDB]
      rfl

theorem ReadThrottleMetric_unsupported_query_witness :
    (ReadThrottleMetric (parsingEnv (rowsDB [])) (sampleProbe "delete from x")
        emptyRegistry).metric.Err ≠ none ∧
      (ReadThrottleMetric (parsingEnv (rowsDB [])) (sampleProbe "delete from x")
        emptyRegistry).metric.Value = 0 ∧
      (ReadThrottleMetric (parsingEnv (rowsDB [])) (sampleProbe "delete from x")
        emptyRegistry).statements = [] ∧
      ∃ e : Error,
        (ReadThrottleMetric (parsingEnv (rowsDB [])) (sampleProbe "delete from x")
          emptyRegistry).metric.Err = some e ∧
        e.text = "Unsupported metrics query type: " ++ "delete from x" ∧
        strings.Contains e.text "delete from x" :=
  have h := ReadThrottleMetric_unsupported_query (parsingEnv (rowsDB []))
    (sampleProbe "delete from x") emptyRegistry (by decide) (by decide) (by decide)
  ⟨h.1, h.2.1, h.2.2.1, h.2.2.2.1 (rowsDB []) false rfl⟩

/-- C3 as stated fails when connection acquisition fails: for the unsupported
query "delete from x" and a connection URI that the provider refuses, the
error returned is the provider's, whose text does not contain the query. -/
theorem ReadThrottleMetric_unsupported_query_refused_uri :
    (malformedProbe "delete from x").MetricQuery ≠ "" ∧
      strings.HasPrefix (strings.ToLower (malformedProbe "delete from x").MetricQuery) "select"
        = false ∧
      strings.HasPrefix (strings.ToLower (malformedProbe "delete from x").MetricQuery)
        "show global" = false ∧
      (ReadThrottleMetric (parsingEnv (rowsDB [])) (malformedProbe "delete from x")
        emptyRegistry).metric.Err =
        some ⟨"invalid DSN: missing the slash separating the database name"⟩ ∧
      ¬ ∃ e : Error,
        (ReadThrottleMetric (parsingEnv (rowsDB [])) (malformedProbe "delete from x")
          emptyRegistry).metric.Err = some e ∧
        strings.Contains e.text (malformedProbe "delete from x").MetricQuery := by
  have herr : (ReadThrottleMetric (parsingEnv (rowsDB [])) (malformedProbe "delete from x")
      emptyRegistry).metric.Err =
      some ⟨"invalid DSN: missing the slash separating the database name"⟩ := by
    rw [ReadThrottleMetric_metric,
      readBody_connection_error _ _
        ⟨"invalid DSN: missing the slash separating the database name"⟩ rfl]
  refine ⟨by decide, by decide, by decide, herr, ?_⟩
  rintro ⟨e, he, hc⟩
  rw [herr] at he
  cases he
  revert hc
  decide

/-! ## The result as a whole -/

/-- The row loop reports an error exactly when some row has a null lag. -/
theorem forEachRow_err_ne_none_iff (rows : List sqlutils.RowMap) (metric : MySQLThrottleMetric) :
    (sqlutils.forEachRow onSlaveStatusRow rows metric).2 ≠ none ↔
      ∃ m ∈ rows, (m.GetNullInt64 "Seconds_Behind_Master").Valid = false := by
  induction rows generalizing metric with
  | nil => simp [forEachRow_nil]
  | cons m rest ih =>
    cases h : (m.GetNullInt64 "Seconds_Behind_Master").Valid
    · rw [forEachRow_null metric m rest h]
      simp [h]
    · rw [forEachRow_valid metric m rest h, ih]
      simp [h]

/-- The body never changes the key it copied from the probe. -/
theorem readBody_key (env : Env) (probe : Probe) : (readBody env probe).1.Key = probe.Key := by
  cases hdb : env.GetDB (probe.GetDBUri "information_schema") with
  | error e => rw [readBody_connection_error env probe e hdb]
  | ok conn =>
    obtain ⟨db, fromCache⟩ := conn
    cases hsel : strings.HasPrefix (strings.ToLower probe.MetricQuery) "select"
    · cases hshow : strings.HasPrefix (strings.ToLower probe.MetricQuery) "show global"
      · by_cases hq : probe.MetricQuery = ""
        · rw [readBody_default env probe db fromCache hq hdb]
          cases hrows : db.Query "show slave status" with
          | error e => simp [sqlutils.QueryRowsMap, hrows]
          | ok rows => simp [sqlutils.QueryRowsMap, hrows, forEachRow_key]
        · rw [readBody_unsupported env probe db fromCache hq hsel hshow hdb]
      · rw [readBody_show_global env probe db fromCache hsel hshow hdb]
    · rw [readBody_select env probe db fromCache hsel hdb]

/-- A one-column scan that stores a number and then reports an error leaves
both in the result: Value 3 next to a non-nil Err. -/
theorem ReadThrottleMetric_scan_stores_then_fails :
    (ReadThrottleMetric
        (sampleEnv (.ok (sampleDB ⟨some 3, some ⟨"driver: bad connection"⟩⟩ ⟨none, none, none⟩
          (.ok []), true)))
        (sampleProbe "select 3") emptyRegistry).metric =
      { Key := ⟨"db1:3306"⟩, Value := 3, Err := some ⟨"driver: bad connection"⟩ } := by
  rw [ReadThrottleMetric_metric,
    readBody_select _ _ (sampleDB ⟨some 3, some ⟨"driver: bad connection"⟩⟩ ⟨none, none, none⟩
      (.ok [])) true (by decide) rfl]
  rfl

/-- C5 as stated fails: when `show slave status` yields two rows (two
replication channels), the first with lag 5 and the second with a null lag,
the callback stores 5 for the first row and fails on the second, so the result
has a non-nil Err next to Value 5. -/
theorem ReadThrottleMetric_partially_populated :
    (ReadThrottleMetric
        (sampleEnv (.ok (rowsDB [replicaRow "Yes" "Yes" ⟨5, true⟩, replicaRow "No" "No" ⟨0, false⟩],
          true)))
        (sampleProbe "") emptyRegistry).metric.Err =
        some ⟨"replication not running; Slave_IO_Running=No, Slave_SQL_Running=No"⟩ ∧
      (ReadThrottleMetric
        (sampleEnv (.ok (rowsDB [replicaRow "Yes" "Yes" ⟨5, true⟩, replicaRow "No" "No" ⟨0, false⟩],
          true)))
        (sampleProbe "") emptyRegistry).metric.Value = 5 ∧
      ¬ ((ReadThrottleMetric
        (sampleEnv (.ok (rowsDB [replicaRow "Yes" "Yes" ⟨5, true⟩, replicaRow "No" "No" ⟨0, false⟩],
          true)))
        (sampleProbe "") emptyRegistry).metric.Err = none ∨
        ((ReadThrottleMetric
        (sampleEnv (.ok (rowsDB [replicaRow "Yes" "Yes" ⟨5, true⟩, replicaRow "No" "No" ⟨0, false⟩],
          true)))
        (sampleProbe "") emptyRegistry).metric.Err ≠ none ∧
        (ReadThrottleMetric
        (sampleEnv (.ok (rowsDB [replicaRow "Yes" "Yes" ⟨5, true⟩, replicaRow "No" "No" ⟨0, false⟩],
          true)))
        (sampleProbe "") emptyRegistry).metric.Value = 0)) := by
  have h : (ReadThrottleMetric
        (sampleEnv (.ok (rowsDB [replicaRow "Yes" "Yes" ⟨5, true⟩, replicaRow "No" "No" ⟨0, false⟩],
          true)))
        (sampleProbe "") emptyRegistry).metric =
      { Key := ⟨"db1:3306"⟩, Value := 5
        Err := some ⟨"replication not running; Slave_IO_Running=No, Slave_SQL_Running=No"⟩ } := by
    rw [ReadThrottleMetric_metric,
      readBody_default _ _ (rowsDB [replicaRow "Yes" "Yes" ⟨5, true⟩,
        replicaRow "No" "No" ⟨0, false⟩]) true rfl rfl]
    have hrows : (rowsDB [replicaRow "Yes" "Yes" ⟨5, true⟩,
        replicaRow "No" "No" ⟨0, false⟩]).Query "show slave status" =
        .ok [replicaRow "Yes" "Yes" ⟨5, true⟩, replicaRow "No" "No" ⟨0, false⟩] := rfl
    simp only [sqlutils.QueryRowsMap, hrows]
    rw [forEachRow_valid _ (replicaRow "Yes" "Yes" ⟨5, true⟩) _ rfl,
      forEachRow_null _ (replicaRow "No" "No" ⟨0, false⟩) _ rfl]
    have h5 : float64 5 = 5 := by simp [float64, roundNat53]
    simp [replicaRow, sampleProbe, h5, fmt.ErrorfNotRunning]
  rw [h]
  refine ⟨rfl, rfl, ?_⟩
  simp

/-- C5, as the code has it. When a row scan that returns an error stores
nothing, and `show slave status` yields at most one row, the result is never
partially populated: either Err is nil, or Err is non-nil and Value is 0. -/
theorem ReadThrottleMetric_never_partial (env : Env) (probe : Probe) (reg : metrics.Registry)
    (hscan : ∀ (db : sql.DB) (fromCache : Bool),
      env.GetDB (probe.GetDBUri "information_schema") = .ok (db, fromCache) →
      ((db.QueryRowScan probe.MetricQuery).err ≠ none →
        (db.QueryRowScan probe.MetricQuery).stored = none) ∧
      ((db.QueryRowScan2 probe.MetricQuery).err ≠ none →
        (db.QueryRowScan2 probe.MetricQuery).stored = none))
    (hrows : ∀ (db : sql.DB) (fromCache : Bool) (rows : List sqlutils.RowMap),
      env.GetDB (probe.GetDBUri "information_schema") = .ok (db, fromCache) →
      db.Query "show slave status" = .ok rows → rows.length ≤ 1) :
    (ReadThrottleMetric env probe reg).metric.Err = none ∨
      ((ReadThrottleMetric env probe reg).metric.Err ≠ none ∧
        (ReadThrottleMetric env probe reg).metric.Value = 0) := by
  rw [ReadThrottleMetric_metric]
  cases hdb : env.GetDB (probe.GetDBUri "information_schema") with
  | error e => rw [readBody_connection_error env probe e hdb]; simp
  | ok conn =>
    obtain ⟨db, fromCache⟩ := conn
    cases hsel : strings.HasPrefix (strings.ToLower probe.MetricQuery) "select"
    · cases hshow : strings.HasPrefix (strings.ToLower probe.MetricQuery) "show global"
      · by_cases hq : probe.MetricQuery = ""
        · rw [readBody_default env probe db fromCache hq hdb]
          cases hr : db.Query "show slave status" with
          | error e => simp [sqlutils.QueryRowsMap, hr, NewMySQLThrottleMetric]
          | ok rows =>
            have hlen := hrows db fromCache rows hdb hr
            simp only [sqlutils.QueryRowsMap, hr]
            match rows, hlen with
            | [], _ => simp [forEachRow_nil]
            | [m], _ =>
              cases hv : (m.GetNullInt64 "Seconds_Behind_Master").Valid
              · rw [forEachRow_null _ m [] hv]
                simp [NewMySQLThrottleMetric]
              · rw [forEachRow_valid _ m [] hv, forEachRow_nil]
                simp
        · rw [readBody_unsupported env probe db fromCache hq hsel hshow hdb]; simp
      · rw [readBody_show_global env probe db fromCache hsel hshow hdb]
        cases he : (db.QueryRowScan2 probe.MetricQuery).err with
        | none => simp
        | some e =>
          have hs := (hscan db fromCache hdb).2 (by simp [he])
          simp [hs]
    · rw [readBody_select env probe db fromCache hsel hdb]
      cases he : (db.QueryRowScan probe.MetricQuery).err with
      | none => simp
      | some e =>
        have hs := (hscan db fromCache hdb).1 (by simp [he])
        simp [hs]

theorem ReadThrottleMetric_never_partial_witness :
    (ReadThrottleMetric (sampleEnv (.ok (rowsDB [replicaRow "No" "No" ⟨0, false⟩], true)))
        (sampleProbe "") emptyRegistry).metric.Err = none ∨
      ((ReadThrottleMetric (sampleEnv (.ok (rowsDB [replicaRow "No" "No" ⟨0, false⟩], true)))
        (sampleProbe "") emptyRegistry).metric.Err ≠ none ∧
        (ReadThrottleMetric (sampleEnv (.ok (rowsDB [replicaRow "No" "No" ⟨0, false⟩], true)))
        (sampleProbe "") emptyRegistry).metric.Value = 0) :=
  ReadThrottleMetric_never_partial
    (sampleEnv (.ok (rowsDB [replicaRow "No" "No" ⟨0, false⟩], true))) (sampleProbe "")
    emptyRegistry
    (fun db fromCache h => by
      cases h
      exact ⟨fun _ => rfl, fun _ => rfl⟩)
    (fun db fromCache rows h hr => by
      cases h
      cases hr
      decide)

/-- C9. For every probe and every answer of the collaborators the result
carries the probe's Key, and each failure shows in Err: a failed acquisition
and a failed row scan are stored as they are, an unsupported query and a
replica row with a null lag give a non-nil Err, a failed `show slave status`
is stored as it is, and rows that all carry a lag give a nil Err. -/
theorem ReadThrottleMetric_key_and_failures (env : Env) (probe : Probe)
    (reg : metrics.Registry) :
    (ReadThrottleMetric env probe reg).metric.Key = probe.Key ∧
      (∀ e : Error, env.GetDB (probe.GetDBUri "information_schema") = .error e →
        (ReadThrottleMetric env probe reg).metric.Err = some e) ∧
      (∀ (db : sql.DB) (fromCache : Bool),
        env.GetDB (probe.GetDBUri "information_schema") = .ok (db, fromCache) →
        (strings.HasPrefix (strings.ToLower probe.MetricQuery) "select" = true →
          (ReadThrottleMetric env probe reg).metric.Err =
            (db.QueryRowScan probe.MetricQuery).err) ∧
        (strings.HasPrefix (strings.ToLower probe.MetricQuery) "select" = false →
          strings.HasPrefix (strings.ToLower probe.MetricQuery) "show global" = true →
          (ReadThrottleMetric env probe reg).metric.Err =
            (db.QueryRowScan2 probe.MetricQuery).err) ∧
        (strings.HasPrefix (strings.ToLower probe.MetricQuery) "select" = false →
          strings.HasPrefix (strings.ToLower probe.MetricQuery) "show global" = false →
          probe.MetricQuery ≠ "" →
          (ReadThrottleMetric env probe reg).metric.Err =
            some (fmt.ErrorfUnsupported probe.MetricQuery)) ∧
        (probe.MetricQuery = "" →
          (∀ e : Error, db.Query "show slave status" = .error e →
            (ReadThrottleMetric env probe reg).metric.Err = some e) ∧
          (∀ rows : List sqlutils.RowMap, db.Query "show slave status" = .ok rows →
            ((ReadThrottleMetric env probe reg).metric.Err ≠ none ↔
              ∃ m ∈ rows, (m.GetNullInt64 "Seconds_Behind_Master").Valid = false)))) := by
  refine ⟨?_, ?_, ?_⟩
  · rw [ReadThrottleMetric_metric, readBody_key]
  · intro e hdb
    rw [ReadThrottleMetric_metric, readBody_connection_error env probe e hdb]
  · intro db fromCache hdb
    refine ⟨?_, ?_, ?_, ?_⟩
    · intro hsel
      rw [ReadThrottleMetric_metric, readBody_select env probe db fromCache hsel hdb]
    · intro hsel hshow
      rw [ReadThrottleMetric_metric, readBody_show_global env probe db fromCache hsel hshow hdb]
    · intro hsel hshow hne
      rw [ReadThrottleMetric_metric, readBody_unsupported env probe db fromCache hne hsel hshow hdb]
    · intro hq
      rw [ReadThrottleMetric_metric, readBody_default env probe db fromCache hq hdb]
      refine ⟨?_, ?_⟩
      · intro e hr
        simp [sqlutils.QueryRowsMap, hr]
      · intro rows hr
        simp only [sqlutils.QueryRowsMap, hr]
        exact forEachRow_err_ne_none_iff rows _

/-! ## Telemetry -/

/-- C8. On every path the deferred step records exactly one sample on the
"probes.latency" timer, adds 1 to the "probes.total" counter, adds 1 to the
"probes.error" counter when the returned Err is non-nil and nothing otherwise,
and leaves every other timer and counter as it was. -/
theorem ReadThrottleMetric_telemetry (env : Env) (probe : Probe) (reg : metrics.Registry) :
    (ReadThrottleMetric env probe reg).registry.timers "probes.latency" =
        reg.timers "probes.latency" ++ [env.Since env.Now] ∧
      (ReadThrottleMetric env probe reg).registry.counters "probes.total" =
        reg.counters "probes.total" + 1 ∧
      (ReadThrottleMetric env probe reg).registry.counters "probes.error" =
        reg.counters "probes.error" +
          (if (ReadThrottleMetric env probe reg).metric.Err ≠ none then 1 else 0) ∧
      (∀ name : String, name ≠ "probes.latency" →
        (ReadThrottleMetric env probe reg).registry.timers name = reg.timers name) ∧
      (∀ name : String, name ≠ "probes.total" → name ≠ "probes.error" →
        (ReadThrottleMetric env probe reg).registry.counters name = reg.counters name) := by
  have hne : ("probes.error" : String) ≠ "probes.total" := by decide
  cases herr : (readBody env probe).1.Err with
  | none =>
    simp [ReadThrottleMetric, recordTelemetry, herr, metrics.Registry.UpdateTimer,
      metrics.Registry.IncCounter, Function.update, hne]
    refine ⟨?_, ?_⟩
    · intro name h1; simp [h1]
    · intro name h1 _; simp [h1]
  | some e =>
    simp [ReadThrottleMetric, recordTelemetry, herr, metrics.Registry.UpdateTimer,
      metrics.Registry.IncCounter, Function.update, hne, hne.symm]
    refine ⟨?_, ?_⟩
    · intro name h1; simp [h1]
    · intro name h1 h2; simp [h1, h2]

end mysql
